import Mathlib

/-!
Shallow embedding of `src/services/ZenExtension.ts` from the vscode-zenml
repository.  The `ZenExtension` class is an activation shim: static mutable
fields become a `ZenState` record, and every call into the host editor API or
into an external collaborator (`runServer`, settings updates, tree-view
creation, dialogs, command execution, disposal) becomes an `Effect` recorded
in a trace.  Each handler or method is a pure function from the state (plus
the inputs the host delivers) to a new state and the list of effects it
performs, in order.
-/

/-- Mirror of the mutable part of `LSClient` that `ZenExtension` reads and
writes: the flags `interpreterSelectionInProgress` and `isZenMLReady`, plus an
opaque identity `clientId` standing for the object reference that is passed to
`runServer`. -/
structure LSClient where
  clientId : Nat
  interpreterSelectionInProgress : Bool
  isZenMLReady : Bool
deriving DecidableEq, Repr

/-- The static fields of the `ZenExtension` class (lines 53-60 of
`ZenExtension.ts`).  `outputChannel` is an opaque handle; disposables are
identified by strings (for the tree views, their view ids). -/
structure ZenState where
  serverId : String
  serverName : String
  outputChannel : Nat
  lsClient : LSClient
  viewsAndCommandsSetup : Bool
  viewDisposables : List String
  commandDisposables : List String
deriving DecidableEq, Repr

/-- Mirror of `IInterpreterDetails` from `common/python`: the handler only
reads `path`, of TypeScript type `string[] | undefined`, so it is modelled as
`Option (List String)` (`none` = `undefined`).  In JavaScript an array is
truthy even when empty, so `some []` passes the `if (interpreterDetails.path)`
test and `path[0]` evaluates to `undefined`; accordingly the first element is
extracted with `List.head?`. -/
structure IInterpreterDetails where
  path : Option (List String)
deriving DecidableEq, Repr

/-- Opaque stand-in for `vscode.ConfigurationChangeEvent`; the handler never
inspects it, it only forwards it to `checkIfConfigurationChanged`. -/
structure ConfigurationChangeEvent where
  eventId : Nat
deriving DecidableEq, Repr

/-- One observable call into the host editor or an external collaborator.
`Option String` parameters model JavaScript values that may be `undefined`
(such as `path[0]` on an empty array). -/
inductive Effect where
  | updateDefaultPythonInterpreterPath (p : Option String)
  | updateWorkspaceInterpreterSettings (p : Option String)
  | runServer (serverId serverName : String) (outputChannel : Nat) (lsClient : Nat)
  | initializePython
  | traceLogMsg (msg : String)
  | consoleLog (msg : String)
  | createTreeView (viewId : String)
  | statusBarGetInstance
  | runRegistry (name : String)
  | refreshUIComponents
  | showInformationMessage (msg : String) (items : List String)
  | executeCommand (cmd : String)
  | showOutputChannel (channel : Nat)
  | invokePrompt
  | dispose (d : String)
deriving DecidableEq, Repr

/-- The `runServer(this.serverId, this.serverName, this.outputChannel,
this.lsClient)` call that every restart path performs. -/
def runServerEffect (s : ZenState) : Effect :=
  Effect.runServer s.serverId s.serverName s.outputChannel s.lsClient.clientId

/-- `updateGlobalSettings` (lines 116-119): awaits
`updateDefaultPythonInterpreterPath` then `updateWorkspaceInterpreterSettings`,
both external, on the given python path. -/
def updateGlobalSettings (pythonPath : Option String) : List Effect :=
  [Effect.updateDefaultPythonInterpreterPath pythonPath,
   Effect.updateWorkspaceInterpreterSettings pythonPath]

/-- The insertion-order keys of the `dataProviders` map (lines 62-67); a
JavaScript `Map` iterates in insertion order. -/
def dataProviders : List String :=
  ["zenmlServerView", "zenmlStackView", "zenmlPipelineView", "zenmlEnvironmentView"]

/-- The `registries` array (lines 69-73). -/
def registries : List String :=
  ["registerServerCommands", "registerStackCommands", "registerPipelineCommands"]

/-- The handler passed to `onDidChangePythonInterpreter` inside
`subscribeToCoreEvents` (lines 146-152): when `path` is truthy it logs,
updates the global settings with `path[0]`, then restarts the server;
otherwise it does nothing. -/
def onDidChangePythonInterpreterHandler (s : ZenState) (d : IInterpreterDetails) :
    ZenState × List Effect :=
  match d.path with
  | some p =>
      (s, Effect.consoleLog "Interpreter changed, restarting LSP server..." ::
          (updateGlobalSettings p.head? ++ [runServerEffect s]))
  | none => (s, [])

/-- The handler passed to `onDidChangeConfiguration` inside
`subscribeToCoreEvents` (lines 156-161).  `checkIfConfigurationChanged` lives
in `common/settings` outside this file; the handler only branches on its
boolean result, so it is taken as a parameter. -/
def onDidChangeConfigurationHandler
    (checkIfConfigurationChanged : ConfigurationChangeEvent → String → Bool)
    (s : ZenState) (e : ConfigurationChangeEvent) : ZenState × List Effect :=
  if checkIfConfigurationChanged e s.serverId then
    (s, [Effect.consoleLog "Configuration changed, restarting LSP server...",
         runServerEffect s])
  else (s, [])

/-- The handler of the registered command `serverId.showLogs` (lines
153-155). -/
def showLogsCommandHandler (s : ZenState) : ZenState × List Effect :=
  (s, [Effect.showOutputChannel s.outputChannel])

/-- The handler of the registered command `serverId.restart` (lines
162-164). -/
def restartCommandHandler (s : ZenState) : ZenState × List Effect :=
  (s, [runServerEffect s])

/-- The handler of the registered command `zenml.promptForInterpreter`
(lines 165-169): it invokes `promptForPythonInterpreter` only when neither
`interpreterSelectionInProgress` nor `isZenMLReady` holds. -/
def promptForInterpreterCommandHandler (s : ZenState) : ZenState × List Effect :=
  if !s.lsClient.interpreterSelectionInProgress && !s.lsClient.isZenMLReady then
    (s, [Effect.invokePrompt])
  else (s, [])

/-- The identifiers registered onto `context.subscriptions` by
`subscribeToCoreEvents` (lines 144-172), in order. -/
def subscribeToCoreEvents (s : ZenState) : List String :=
  ["onDidChangePythonInterpreter",
   s.serverId ++ ".showLogs",
   "onDidChangeConfiguration",
   s.serverId ++ ".restart",
   "zenml.promptForInterpreter",
   "languageStatusItem:" ++ s.serverId]

/-- Body of the `setImmediate` callback in `deferredInitialize` (lines
95-109).  The awaited `getInterpreterDetails()` result is external input. -/
def deferredInitialize (s : ZenState) (interpreterDetails : IInterpreterDetails) :
    ZenState × List Effect :=
  match interpreterDetails.path with
  | some p =>
      (s, updateGlobalSettings p.head? ++ [runServerEffect s])
  | none =>
      (s, [Effect.traceLogMsg "Setting up Python extension listener.",
           Effect.initializePython, runServerEffect s])

/-- The `dataProviders.forEach` loop of `setupViewsAndCommands` (lines
132-135): each iteration creates one tree view and pushes it onto
`viewDisposables`. -/
def setupViewsLoop (s : ZenState) : ZenState × List Effect :=
  dataProviders.foldl
    (fun (acc : ZenState × List Effect) viewId =>
      ({ acc.1 with viewDisposables := acc.1.viewDisposables ++ [viewId] },
       acc.2 ++ [Effect.createTreeView viewId]))
    (s, [])

/-- `setupViewsAndCommands` (lines 124-139): when the setup flag is already
true it logs and refreshes only; otherwise it instantiates the status bar,
creates and pushes the four tree views, runs the registries, refreshes, and
sets the flag. -/
def setupViewsAndCommands (s : ZenState) : ZenState × List Effect :=
  if s.viewsAndCommandsSetup then
    (s, [Effect.consoleLog "Views and commands have already been set up. Refreshing views...",
         Effect.refreshUIComponents])
  else
    let r := setupViewsLoop s
    ({ r.1 with viewsAndCommandsSetup := true },
     Effect.statusBarGetInstance ::
       (r.2 ++ registries.map Effect.runRegistry ++ [Effect.refreshUIComponents]))

/-- Set `lsClient.interpreterSelectionInProgress`. -/
def setSelectionInProgress (s : ZenState) (b : Bool) : ZenState :=
  { s with lsClient := { s.lsClient with interpreterSelectionInProgress := b } }

/-- Set `lsClient.isZenMLReady` (written, from the point of view of this
class, only by the external commands the try block executes). -/
def setReady (s : ZenState) (b : Bool) : ZenState :=
  { s with lsClient := { s.lsClient with isZenMLReady := b } }

/-- Environment/oracle for one run of `promptForPythonInterpreter`:
the user's dialog answer (`none` = dismissed), whether each awaited external
call throws, and the value of `lsClient.isZenMLReady` after each executed
command completes (the commands run external code that may install ZenML and
flip the flag). -/
structure PromptEnv where
  selected : Option String
  dialogThrows : Bool
  setInterpreterThrows : Bool
  restartThrows : Bool
  readyAfterSetInterpreter : Bool
  readyAfterRestart : Bool
deriving DecidableEq, Repr

/-- The information dialog of line 187-191. -/
def promptDialogEffect : Effect :=
  Effect.showInformationMessage
    "ZenML not found with the current Python interpreter. Would you like to select a different interpreter?"
    ["Select Interpreter", "Cancel"]

/-- The try block of `promptForPythonInterpreter` (lines 186-199), started
with the in-progress flag already set.  Result: state after the try block,
effects emitted, the local `userCancelled`, and whether an exception
escaped. -/
def promptTry (s : ZenState) (env : PromptEnv) : ZenState × List Effect × Bool × Bool :=
  if env.dialogThrows then
    (s, [promptDialogEffect], false, true)
  else if env.selected = some "Select Interpreter" then
    if env.setInterpreterThrows then
      (s, [promptDialogEffect, Effect.executeCommand "python.setInterpreter"], false, true)
    else
      let s2 := setReady s env.readyAfterSetInterpreter
      if env.restartThrows then
        (s2, [promptDialogEffect, Effect.executeCommand "python.setInterpreter",
              Effect.consoleLog "Interpreter selection completed.",
              Effect.executeCommand (s.serverId ++ ".restart")], false, true)
      else
        (setReady s2 env.readyAfterRestart,
         [promptDialogEffect, Effect.executeCommand "python.setInterpreter",
          Effect.consoleLog "Interpreter selection completed.",
          Effect.executeCommand (s.serverId ++ ".restart")], false, false)
  else
    (s, [promptDialogEffect, Effect.consoleLog "Interpreter selection cancelled."], true, false)

/-- The messages of the finally block (lines 202-211), chosen from
`isZenMLReady` as observed there and the local `userCancelled`. -/
def promptFinallyTrace (ready userCancelled : Bool) : List Effect :=
  if !ready && !userCancelled then
    [Effect.consoleLog "ZenML is still not installed. Prompting again..."]
  else if ready then
    [Effect.showInformationMessage "🚀 ZenML installation found. Ready to use." []]
  else
    [Effect.showInformationMessage "Interpreter selection cancelled. ZenML features will be disabled." []]

/-- `promptForPythonInterpreter` (lines 179-213).  Early return when
`isZenMLReady`; otherwise the in-progress flag is raised, the try block runs,
and the finally block lowers the flag and reports.  The final `Bool` records
whether an exception propagated out (re-raised after the finally block). -/
def promptForPythonInterpreter (s : ZenState) (env : PromptEnv) :
    ZenState × List Effect × Bool :=
  if s.lsClient.isZenMLReady then
    (s, [Effect.consoleLog "ZenML is already installed, no need to prompt for interpreter."],
     false)
  else
    let r := promptTry (setSelectionInProgress s true) env
    let sF := setSelectionInProgress r.1 false
    (sF, r.2.1 ++ promptFinallyTrace sF.lsClient.isZenMLReady r.2.2.1, r.2.2.2)

/-- `deactivateFeatures` (lines 261-268): dispose every element of
`commandDisposables` in order, empty it, then the same for
`viewDisposables`, then log. -/
def deactivateFeatures (s : ZenState) : ZenState × List Effect :=
  ({ s with commandDisposables := [], viewDisposables := [] },
   s.commandDisposables.map Effect.dispose ++ s.viewDisposables.map Effect.dispose ++
     [Effect.consoleLog "Features deactivated due to unmet requirements."])

/-- Recognises the `runServer` effect. -/
def isRunServer : Effect → Bool
  | Effect.runServer _ _ _ _ => true
  | _ => false

/-- Recognises a `console.log`. -/
def isConsoleLog : Effect → Bool
  | Effect.consoleLog _ => true
  | _ => false

/-- Recognises an interpreter-settings update. -/
def isSettingsUpdate : Effect → Bool
  | Effect.updateDefaultPythonInterpreterPath _ => true
  | Effect.updateWorkspaceInterpreterSettings _ => true
  | _ => false

/-- Recognises an invocation of `promptForPythonInterpreter`. -/
def isInvokePrompt : Effect → Bool
  | Effect.invokePrompt => true
  | _ => false

/-- A concrete extension state used for counterexamples. -/
def sampleState : ZenState :=
  { serverId := "zenml-python", serverName := "ZenML",
    outputChannel := 3,
    lsClient := { clientId := 7, interpreterSelectionInProgress := false, isZenMLReady := false },
    viewsAndCommandsSetup := false, viewDisposables := [], commandDisposables := [] }

/-- A concrete state whose `interpreterSelectionInProgress` flag is raised and
whose `isZenMLReady` flag is set. -/
def promptCounterState : ZenState :=
  { sampleState with
    lsClient := { clientId := 7, interpreterSelectionInProgress := true, isZenMLReady := true } }

/-- A concrete environment for `promptForPythonInterpreter`. -/
def promptSampleEnv : PromptEnv :=
  { selected := none, dialogThrows := false, setInterpreterThrows := false,
    restartThrows := false, readyAfterSetInterpreter := false, readyAfterRestart := false }

/-- `Effect.dispose` is injective, so counting a disposal in a trace counts
the disposable. -/
theorem dispose_injective : Function.Injective Effect.dispose := by
  intro a b h
  injection h

/-- The finally block of `promptForPythonInterpreter` emits messages only,
never an invocation of the prompt. -/
theorem prompt_finally_no_invoke (r c : Bool) :
    (promptFinallyTrace r c).any isInvokePrompt = false := by
  cases r <;> cases c <;> simp [promptFinallyTrace, isInvokePrompt]

/-- The try block of `promptForPythonInterpreter` never emits an invocation
of the prompt. -/
theorem promptTry_no_invoke (s : ZenState) (env : PromptEnv) :
    ((promptTry s env).2.1.any isInvokePrompt) = false := by
  by_cases h1 : env.dialogThrows = true <;>
  by_cases h2 : env.selected = some "Select Interpreter" <;>
  by_cases h3 : env.setInterpreterThrows = true <;>
  by_cases h4 : env.restartThrows = true <;>
  simp [promptTry, h1, h2, h3, h4, isInvokePrompt, promptDialogEffect, setReady]

/-- C1: for every configuration-change event delivered to the handler that
`subscribeToCoreEvents` registers, the server is restarted with the stored
`serverId`, `serverName`, `outputChannel` and `lsClient` exactly when
`checkIfConfigurationChanged e serverId` is true, and when it is false the
handler performs no action (no state change, no effect). -/
theorem config_change_restarts_iff_check :
    ∀ (check : ConfigurationChangeEvent → String → Bool) (s : ZenState)
      (e : ConfigurationChangeEvent),
      (runServerEffect s ∈ (onDidChangeConfigurationHandler check s e).2 ↔
        check e s.serverId = true)
      ∧ (onDidChangeConfigurationHandler check s e = (s, []) ↔
        check e s.serverId = false) := by
  intro check s e
  by_cases h : check e s.serverId <;>
    simp [onDidChangeConfigurationHandler, h, runServerEffect]

/-- C2 (amended): neither editor-event handler modifies the extension state;
the configuration-change handler's only effects are logging and the restart
call, and the interpreter-change handler's only effects are logging, the two
interpreter-settings updates and the restart call. -/
theorem event_handlers_only_restart_and_update_settings :
    ∀ (check : ConfigurationChangeEvent → String → Bool) (s : ZenState)
      (e : ConfigurationChangeEvent) (d : IInterpreterDetails),
      (onDidChangeConfigurationHandler check s e).1 = s
      ∧ (onDidChangeConfigurationHandler check s e).2.all
          (fun x => isConsoleLog x || isRunServer x) = true
      ∧ (onDidChangePythonInterpreterHandler s d).1 = s
      ∧ (onDidChangePythonInterpreterHandler s d).2.all
          (fun x => isConsoleLog x || isSettingsUpdate x || isRunServer x) = true := by
  intro check s e d
  refine ⟨?_, ?_, ?_, ?_⟩
  · by_cases h : check e s.serverId <;> simp [onDidChangeConfigurationHandler, h]
  · by_cases h : check e s.serverId <;>
      simp [onDidChangeConfigurationHandler, h, isConsoleLog, isRunServer, runServerEffect]
  · cases hd : d.path <;> simp [onDidChangePythonInterpreterHandler, hd]
  · cases hd : d.path <;>
      simp [onDidChangePythonInterpreterHandler, hd, updateGlobalSettings,
            isConsoleLog, isRunServer, isSettingsUpdate, runServerEffect]

/-- C2 counterexample: an interpreter-change event carrying a path makes the
handler perform an interpreter-settings update, an effect that modifies state
outside the restart call and is not `runServer`. -/
theorem interpreter_change_updates_settings_counterexample :
    Effect.updateDefaultPythonInterpreterPath (some "/usr/bin/python3")
      ∈ (onDidChangePythonInterpreterHandler sampleState
          ⟨some ["/usr/bin/python3"]⟩).2
    ∧ isRunServer (Effect.updateDefaultPythonInterpreterPath (some "/usr/bin/python3"))
        = false := by
  constructor
  · simp [onDidChangePythonInterpreterHandler, updateGlobalSettings, sampleState]
  · rfl

/-- C3: on an interpreter-change event whose `path` is present, the handler
logs, updates the default interpreter path and the workspace interpreter
settings with the first element of `path`, and then (afterwards, in this
order) restarts the server; when `path` is absent it does nothing. -/
theorem interpreter_change_updates_then_restarts :
    ∀ (s : ZenState) (p : List String),
      onDidChangePythonInterpreterHandler s ⟨some p⟩ =
        (s, [Effect.consoleLog "Interpreter changed, restarting LSP server...",
             Effect.updateDefaultPythonInterpreterPath p.head?,
             Effect.updateWorkspaceInterpreterSettings p.head?,
             runServerEffect s])
      ∧ onDidChangePythonInterpreterHandler s ⟨none⟩ = (s, []) := by
  intro s p
  exact ⟨rfl, rfl⟩

/-- C4: the deferred initialization ends with exactly one `runServer` call in
both branches: with interpreter details present, the global settings are
updated from the first path element before `runServer`; without them,
`initializePython` runs before `runServer`; in every case `runServer` is the
last effect and occurs exactly once. -/
theorem deferred_initialize_single_run_server :
    (∀ (s : ZenState) (p : List String),
        deferredInitialize s ⟨some p⟩ =
          (s, [Effect.updateDefaultPythonInterpreterPath p.head?,
               Effect.updateWorkspaceInterpreterSettings p.head?,
               runServerEffect s]))
    ∧ (∀ s : ZenState,
        deferredInitialize s ⟨none⟩ =
          (s, [Effect.traceLogMsg "Setting up Python extension listener.",
               Effect.initializePython, runServerEffect s]))
    ∧ (∀ (s : ZenState) (d : IInterpreterDetails),
        (deferredInitialize s d).2.countP isRunServer = 1
        ∧ (deferredInitialize s d).2.getLast? = some (runServerEffect s)) := by
  refine ⟨fun s p => rfl, fun s => rfl, fun s d => ?_⟩
  obtain ⟨path⟩ := d
  cases path <;>
    simp [deferredInitialize, updateGlobalSettings, List.countP_cons,
          isRunServer, runServerEffect, List.getLast?]

/-- C5: `promptForPythonInterpreter` never re-invokes the prompt itself: on
every path (ZenML ready, selection completed, cancellation, dismissal, or an
exception from the dialog or the executed commands) its trace contains no
prompt invocation, so there is no retry even when ZenML is still not ready
at the end. -/
theorem prompt_never_retries :
    ∀ (s : ZenState) (env : PromptEnv),
      ((promptForPythonInterpreter s env).2.1.any isInvokePrompt) = false := by
  intro s env
  by_cases hr : s.lsClient.isZenMLReady = true <;>
    simp [promptForPythonInterpreter, hr, isInvokePrompt, List.any_append,
          promptTry_no_invoke, prompt_finally_no_invoke]

/-- C6: the first completed call to `setupViewsAndCommands` (setup flag still
false) instantiates the status bar, creates exactly one tree view per entry of
`dataProviders` in insertion order and pushes each onto `viewDisposables`,
runs every registry function, refreshes the UI, and sets
`viewsAndCommandsSetup` to true. -/
theorem first_setup_creates_views_and_registers :
    ∀ s : ZenState,
      setupViewsAndCommands { s with viewsAndCommandsSetup := false } =
        ({ s with viewsAndCommandsSetup := true,
                  viewDisposables := s.viewDisposables ++ dataProviders },
         Effect.statusBarGetInstance ::
           (dataProviders.map Effect.createTreeView ++
            registries.map Effect.runRegistry ++ [Effect.refreshUIComponents]))
      ∧ ∀ v ∈ dataProviders,
          ((setupViewsAndCommands { s with viewsAndCommandsSetup := false }).2.count
            (Effect.createTreeView v)) = 1 := by
  intro s
  have heq : setupViewsAndCommands { s with viewsAndCommandsSetup := false } =
      ({ s with viewsAndCommandsSetup := true,
                viewDisposables := s.viewDisposables ++ dataProviders },
       Effect.statusBarGetInstance ::
         (dataProviders.map Effect.createTreeView ++
          registries.map Effect.runRegistry ++ [Effect.refreshUIComponents])) := by
    simp [setupViewsAndCommands, setupViewsLoop, dataProviders, registries,
          List.append_assoc]
  refine ⟨heq, ?_⟩
  intro v hv
  rw [heq]
  fin_cases hv <;> rfl

/-- C7: the handler of the registered command `serverId.restart` forwards to
`runServer` with the stored `serverId`, `serverName`, `outputChannel` and
`lsClient`, leaves the state unchanged and performs no other effect; the
command id is among the registrations of `subscribeToCoreEvents`. -/
theorem restart_command_forwards_to_run_server :
    ∀ s : ZenState,
      restartCommandHandler s =
        (s, [Effect.runServer s.serverId s.serverName s.outputChannel s.lsClient.clientId])
      ∧ s.serverId ++ ".restart" ∈ subscribeToCoreEvents s := by
  intro s
  exact ⟨rfl, by simp [subscribeToCoreEvents]⟩

/-- C8: every call to `setupViewsAndCommands` made after the setup flag is
true changes no state (no view created, no registry run, no disposable
pushed) and performs only the already-set-up log line and
`refreshUIComponents`. -/
theorem repeat_setup_only_refreshes :
    ∀ s : ZenState,
      setupViewsAndCommands { s with viewsAndCommandsSetup := true } =
        ({ s with viewsAndCommandsSetup := true },
         [Effect.consoleLog "Views and commands have already been set up. Refreshing views...",
          Effect.refreshUIComponents]) := by
  intro s
  rfl

/-- C9 (amended): on every path that passes the early `isZenMLReady` check
(selection, cancellation, dismissal, or an exception from the dialog or the
executed commands) the finally block resets
`lsClient.interpreterSelectionInProgress` to false; the early-return path
leaves the flag unchanged, so the final flag value is exactly
`isZenMLReady && (flag at entry)` and in particular is false whenever the
flag was false at entry. -/
theorem prompt_selection_flag_final_value :
    ∀ (s : ZenState) (env : PromptEnv),
      (promptForPythonInterpreter s env).1.lsClient.interpreterSelectionInProgress =
        (s.lsClient.isZenMLReady && s.lsClient.interpreterSelectionInProgress) := by
  intro s env
  by_cases hr : s.lsClient.isZenMLReady = true <;>
    simp [promptForPythonInterpreter, hr, setSelectionInProgress]

/-- C9 counterexample: with `isZenMLReady` true and the in-progress flag
already true at entry, `promptForPythonInterpreter` returns on the early path
with the flag still true, not false. -/
theorem prompt_early_return_keeps_flag_counterexample :
    promptCounterState.lsClient.isZenMLReady = true
    ∧ promptCounterState.lsClient.interpreterSelectionInProgress = true
    ∧ (promptForPythonInterpreter promptCounterState
        promptSampleEnv).1.lsClient.interpreterSelectionInProgress = true := by
  exact ⟨rfl, rfl, rfl⟩

/-- C10: `deactivateFeatures` disposes every element of `commandDisposables`
and then of `viewDisposables`, each occurrence exactly once, empties both
arrays, and modifies no other field of the extension state. -/
theorem deactivate_disposes_all_and_empties :
    ∀ s : ZenState,
      deactivateFeatures s =
        ({ s with commandDisposables := [], viewDisposables := [] },
         (s.commandDisposables ++ s.viewDisposables).map Effect.dispose ++
           [Effect.consoleLog "Features deactivated due to unmet requirements."])
      ∧ ∀ d : String,
          (deactivateFeatures s).2.count (Effect.dispose d) =
            (s.commandDisposables ++ s.viewDisposables).count d := by
  intro s
  constructor
  · simp [deactivateFeatures, List.append_assoc]
  · intro d
    simp only [deactivateFeatures, List.count_append]
    rw [List.count_map_of_injective _ Effect.dispose dispose_injective,
        List.count_map_of_injective _ Effect.dispose dispose_injective]
    simp [List.count_singleton, List.count_cons, List.count_nil]
